import Mathlib

/-!
Verification of the Tzimisce/Storyteller dicebot core against its
natural-language specification.

The Python sources are shallowly embedded:
* Python strings are Lean `String`s (in this toolchain a `String` wraps a
  `List Char`, matching Python's character-sequence view) or `List Char`
  where index arithmetic matters;
* Python `int` is Lean `Int`; fallible operations (`int(...)`, list
  indexing) return `Option`, with `none` standing for a raised exception;
* the SQL row stores are association lists accessed through the same
  get/set contracts the code uses;
* the handful of repository functions that live outside the provided
  sources (the dice-drawing primitives, `roll_from_string`, the
  `InitiativeManager` store operations) are modelled from the spec and
  carry a doc comment saying so.
-/

/-! ### Python primitive helpers -/

/-- Value of a digit string, most significant first (no sign). -/
def digitsVal (l : List Char) : Nat :=
  l.foldl (fun a c => 10 * a + (c.toNat - '0'.toNat)) 0

/-- Python `int(s)` on a whitespace-free token: optional sign then digits;
`none` models the `ValueError` raised on anything else. -/
def pyInt (s : String) : Option Int :=
  match s.data with
  | [] => none
  | '+' :: rest =>
      if rest ≠ [] ∧ rest.all Char.isDigit then some (Int.ofNat (digitsVal rest)) else none
  | '-' :: rest =>
      if rest ≠ [] ∧ rest.all Char.isDigit then some (-(Int.ofNat (digitsVal rest))) else none
  | l => if l.all Char.isDigit then some (Int.ofNat (digitsVal l)) else none

/-- Python `s.isdigit()` for ASCII content: nonempty and all digits. -/
def pyIsdigit (s : String) : Bool :=
  !s.data.isEmpty && s.data.all Char.isDigit

/-- Python `s[0].isdigit()`; `false` on the empty string (whitespace
splitting never produces empty tokens, so the `IndexError` case is
unreachable). -/
def firstIsDigit (s : String) : Bool :=
  match s.data with
  | [] => false
  | c :: _ => c.isDigit

/-- Whether a token begins with an explicit `+`/`-` sign: this is exactly
when the `sign` group of the `usex` regular expression is non-`None`. -/
def hasSign (s : String) : Bool :=
  match s.data with
  | [] => false
  | c :: _ => c == '+' || c == '-'

/-- Python `f-string` `{i:+}` formatting: always shows the sign. -/
def fmtSigned (i : Int) : String :=
  if 0 ≤ i then "+" ++ toString i else toString i

/-- Python `str` on an int. -/
def pyStr (i : Int) : String := toString i

/-- Runs of non-whitespace characters, in order; `acc` holds the current
token reversed. -/
def wsSplitAux : List Char → List Char → List String
  | [], acc => if acc.isEmpty then [] else [⟨acc.reverse⟩]
  | c :: rest, acc =>
      if c.isWhitespace then
        if acc.isEmpty then wsSplitAux rest []
        else (⟨acc.reverse⟩ : String) :: wsSplitAux rest []
      else wsSplitAux rest (c :: acc)

/-- Python `s.split()`: split on whitespace, dropping empty pieces. -/
def pySplitWs (s : String) : List String :=
  wsSplitAux s.data []

/-- Python `" ".join(l)`. -/
def joinSpace : List String → String
  | [] => ""
  | [t] => t
  | t :: ts => t ++ " " ++ joinSpace ts

/-- Python truthiness of an optional string: `None` and `""` are falsy. -/
def pyTruthy : Option String → Bool
  | none => false
  | some s => !s.isEmpty

/-- Case folding as used by SQL `ILIKE` / Python `.lower()` on the ASCII
macro names the grammar admits (`[\w-]+`). -/
def strLower (s : String) : String := ⟨s.data.map Char.toLower⟩

/-! ### The command dictionary

`storyteller.databases.database.RollDB` receives a `command` defaultdict
with (at least) the keys `syntax`, `comment` and (written on override)
`override`.  `syntax` is a Lean keyword, so the field is called `stx`. -/

structure Command where
  stx : String
  comment : Option String
  override : Option String
deriving DecidableEq

deriving instance DecidableEq for Except

/-! ### RollDB.__match_stored_roll (database.py lines 86-142) -/

/-- Error message from `__match_stored_roll` for an unsigned nonzero pool
modifier. -/
def pool_sign_err : String := "Pool modifiers must be zero or have a +/- sign."

/-- Lines 137-141: the stored comment is adopted only when it is truthy and
the invocation-time comment is not. -/
def applyStoredComment (sc : Option String) (cmd : Command) : Command :=
  if pyTruthy sc && !pyTruthy cmd.comment then { cmd with comment := sc } else cmd

/-- The difficulty slot of a stored syntax after the pool token: lines
113-114 insert a default difficulty of `6` when there is no second token or
the second token does not start with a digit.  Returns the slot value and
the remaining tokens.  (The code inserts the int `6`; it is always either
overwritten with a string or read back through `int()` before the final
join, so inserting the string `"6"` is equivalent.) -/
def defaultDiffSlot : List String → String × List String
  | [] => ("6", [])
  | t1 :: r => if firstIsDigit t1 then (t1, r) else ("6", t1 :: r)

/-- Lines 112-114 applied to the whole token list; `none` models the
`IndexError` on an empty stored syntax. -/
def insertDefaultDiff : List String → Option (List String)
  | [] => none
  | t0 :: ts => some (t0 :: (defaultDiffSlot ts).1 :: (defaultDiffSlot ts).2)

/-- Line 117: `syntax[0] = str(int(syntax[0]) + pool_mod)`; `none` models
the `ValueError` when the head token is not an integer. -/
def pool_step (toks : List String) (pool_mod : Int) : Option (List String) :=
  match toks with
  | [] => none
  | t0 :: rest => (pyInt t0).map (fun pool => pyStr (pool + pool_mod) :: rest)

/-- Lines 119-132: replace the difficulty when the (defaulted `"+0"`)
second modifier is digits-only, otherwise adjust it by the signed value.
Returns the new tokens and the `diff_desc` override text. -/
def diff_step (toks : List String) (tok2 : Option String) :
    Option (List String × String) :=
  match toks with
  | t0 :: t1 :: rest =>
      let diff_tok := tok2.getD "+0"
      if pyIsdigit diff_tok then
        some (t0 :: diff_tok :: rest, "Diff. to " ++ diff_tok ++ ".")
      else
        match pyInt diff_tok, pyInt t1 with
        | some dm, some cur =>
            some (t0 :: pyStr (cur + dm) :: rest,
                  if dm = 0 then "" else "Diff. " ++ fmtSigned dm ++ ".")
        | _, _ => none
  | _ => none

/-- `RollDB.__match_stored_roll` after a successful lookup.  `stored` is
the `(Syntax, Comment)` row, `mods` is the regex `mods` group split into
its one or two tokens (`none` when the group did not match), `cmd` the
incoming command.  `some (.error m)` is the early error-string return,
`some (.ok c)` the returned command, `none` a raised exception. -/
def match_stored_roll (stored : String × Option String)
    (mods : Option (String × Option String)) (cmd : Command) :
    Option (Except String Command) :=
  match mods with
  | none => some (.ok (applyStoredComment stored.2 { cmd with stx := stored.1 }))
  | some (tok1, tok2) =>
      match pyInt tok1 with
      | none => none
      | some pool_mod =>
          if pool_mod ≠ 0 ∧ hasSign tok1 = false then
            some (.error pool_sign_err)
          else
            let pool_desc :=
              if pool_mod = 0 then "" else "Pool " ++ fmtSigned pool_mod ++ ". "
            match insertDefaultDiff (pySplitWs stored.1) with
            | none => none
            | some toks =>
                match pool_step toks pool_mod with
                | none => none
                | some toks2 =>
                    match diff_step toks2 tok2 with
                    | none => none
                    | some (toks3, diff_desc) =>
                        some (.ok (applyStoredComment stored.2
                          { cmd with stx := joinSpace toks3,
                                     override := some (pool_desc ++ diff_desc) }))

/-! ### The SavedRolls store (database.py lines 155-261) -/

/-- One row of the `SavedRolls` table, in column order of the `INSERT`. -/
structure StoredRollRow where
  userid : Int
  name : String
  stx : String
  guild : Int
  comment : Option String
deriving DecidableEq

/-- `retrieve_stored_roll`: `SELECT Syntax, Comment ... WHERE Guild=%s AND
ID=%s AND Name ILIKE %s` (first matching row; `ILIKE` on a pattern without
wildcards is a case-insensitive comparison). -/
def retrieve_stored_roll (rows : List StoredRollRow) (guild userid : Int)
    (name : String) : Option (String × Option String) :=
  (rows.find? (fun r =>
      r.guild == guild && r.userid == userid && strLower r.name == strLower name)).map
    (fun r => (r.stx, r.comment))

/-- `RollDB.__store_roll`: insert a new row, or update syntax (and the
comment, when a truthy one is given) of every matching row. -/
def store_roll (rows : List StoredRollRow) (guild userid : Int)
    (name stx : String) (comment : Option String) :
    List StoredRollRow × String :=
  if (retrieve_stored_roll rows guild userid name).isNone then
    (rows ++ [⟨userid, name, stx, guild, comment⟩],
     "Saved new macro: `" ++ name ++ "`.")
  else if pyTruthy comment then
    (rows.map (fun r =>
        if r.userid == userid && r.guild == guild && strLower r.name == strLower name
        then { r with stx := stx, comment := comment } else r),
     "Updated `" ++ name ++ "` syntax and comment.")
  else
    (rows.map (fun r =>
        if r.userid == userid && r.guild == guild && strLower r.name == strLower name
        then { r with stx := stx } else r),
     "Updated `" ++ name ++ "` syntax.")

/-- The "use a stored roll" branch of `query_saved_rolls` (lines 66-70 plus
`__match_stored_roll`).  It performs no store write, which the returned row
list records.  The fuzzy-suggestion branch (a `pg_trgm` `SIMILARITY` SQL
query) is elided into the plain not-found message; no claim depends on it. -/
def query_use (rows : List StoredRollRow) (guild userid : Int) (name : String)
    (mods : Option (String × Option String)) (cmd : Command) :
    List StoredRollRow × Option (Except String Command) :=
  (rows,
   match retrieve_stored_roll rows guild userid name with
   | none => some (.error ("Sorry, you have no macro named `" ++ name ++ "`!"))
   | some compound => match_stored_roll compound mods cmd)

/-- C1: storing `brawl = 7 6` and using it with no modifiers returns syntax
`"7 6"`; using it with pool delta `+2` returns syntax `"9 6"` with an
override text containing `"Pool +2."`. -/
theorem stored_roll_round_trip :
    (store_roll [] 10 20 "brawl" "7 6" none).1 = [⟨20, "brawl", "7 6", 10, none⟩] ∧
    query_use (store_roll [] 10 20 "brawl" "7 6" none).1 10 20 "brawl" none
        ⟨"brawl", none, none⟩
      = ((store_roll [] 10 20 "brawl" "7 6" none).1, some (.ok ⟨"7 6", none, none⟩)) ∧
    query_use (store_roll [] 10 20 "brawl" "7 6" none).1 10 20 "brawl"
        (some ("+2", none)) ⟨"brawl +2", none, none⟩
      = ((store_roll [] 10 20 "brawl" "7 6" none).1,
         some (.ok ⟨"9 6", none, some "Pool +2. "⟩)) ∧
    "Pool +2.".data <:+: "Pool +2. ".data := by
  refine ⟨by decide, by decide, by decide, by decide⟩

/-! ### Claims C2, C3, C4 about `__match_stored_roll` -/

/-- A token with an explicit sign never satisfies `isdigit`. -/
theorem hasSign_not_digit (t : String) (h : hasSign t = true) :
    pyIsdigit t = false := by
  rcases hd : t.data with _ | ⟨c, cs⟩
  · simp [hasSign, hd] at h
  · simp only [hasSign, hd, Bool.or_eq_true, beq_iff_eq] at h
    have hplus : Char.isDigit '+' = false := by decide
    have hminus : Char.isDigit '-' = false := by decide
    rcases h with h | h <;> subst h <;>
      simp [pyIsdigit, hd, List.all_cons, hplus, hminus]

/-- The comment of the command produced by the comment-priority tail
(lines 137-141). -/
theorem applyStoredComment_comment (sc : Option String) (cmd : Command) :
    (applyStoredComment sc cmd).comment =
      if pyTruthy sc && !pyTruthy cmd.comment then sc else cmd.comment := by
  unfold applyStoredComment
  split <;> rfl

/-- C3 (amended): whenever a stored-roll use returns a command, the
invocation-time comment is kept whenever it is non-empty; the stored
comment is adopted only when it is non-empty and the invocation-time
comment is absent or empty. -/
theorem use_comment_priority (stored : String × Option String)
    (mods : Option (String × Option String)) (cmd : Command) (c : Command)
    (h : match_stored_roll stored mods cmd = some (.ok c)) :
    c.comment =
      if pyTruthy stored.2 && !pyTruthy cmd.comment then stored.2 else cmd.comment := by
  rcases mods with _ | ⟨tok1, tok2⟩
  · simp only [match_stored_roll, Option.some.injEq, Except.ok.injEq] at h
    subst h
    rw [applyStoredComment_comment]
  · simp only [match_stored_roll] at h
    cases hpi : pyInt tok1 with
    | none =>
      simp only [hpi] at h
      exact Option.noConfusion h
    | some pm =>
      simp only [hpi] at h
      by_cases hc : pm ≠ 0 ∧ hasSign tok1 = false
      · rw [if_pos hc] at h
        simp at h
      · rw [if_neg hc] at h
        cases hins : insertDefaultDiff (pySplitWs stored.1) with
        | none =>
          simp only [hins] at h
          exact Option.noConfusion h
        | some toks =>
          simp only [hins] at h
          cases hps : pool_step toks pm with
          | none =>
            simp only [hps] at h
            exact Option.noConfusion h
          | some toks2 =>
            simp only [hps] at h
            cases hds : diff_step toks2 tok2 with
            | none =>
              simp only [hds] at h
              exact Option.noConfusion h
            | some pr =>
              obtain ⟨toks3, dd⟩ := pr
              simp only [hds, Option.some.injEq, Except.ok.injEq] at h
              subst h
              rw [applyStoredComment_comment]

/-- C3 counterexample: with stored comment `"stored"` and invocation-time
comment `"inv"`, the returned command carries `"inv"`, not the stored
comment, refuting the claimed priority. -/
theorem use_comment_priority_cex :
    match_stored_roll ("7 6", some "stored") none ⟨"brawl", some "inv", none⟩
      = some (.ok ⟨"7 6", some "inv", none⟩) ∧
    (some "inv" : Option String) ≠ some "stored" :=
  ⟨by decide, by decide⟩

/-- Witness for `use_comment_priority` at a concrete macro use. -/
theorem use_comment_priority_witness :
    (⟨"7 6", some "inv", none⟩ : Command).comment =
      if pyTruthy (some "stored") && !pyTruthy (some "inv") then some "stored"
      else some "inv" :=
  use_comment_priority ("7 6", some "stored") none ⟨"brawl", some "inv", none⟩
    ⟨"7 6", some "inv", none⟩ (by decide)

/-- C4: a use whose first modifier token is a nonzero number without a
leading sign is answered with the sign error message, and the use path
writes nothing to the store; an unsigned delta of exactly zero is not
rejected with that message. -/
theorem pool_delta_sign_validation (stored : String × Option String)
    (tok1 : String) (tok2 : Option String) (cmd : Command) (p : Int)
    (hp : pyInt tok1 = some p) (hs : hasSign tok1 = false) :
    (p ≠ 0 →
      match_stored_roll stored (some (tok1, tok2)) cmd = some (.error pool_sign_err) ∧
      ∀ (rows : List StoredRollRow) (g u : Int) (nm : String),
        (query_use rows g u nm (some (tok1, tok2)) cmd).1 = rows) ∧
    (p = 0 →
      match_stored_roll stored (some (tok1, tok2)) cmd ≠ some (.error pool_sign_err)) := by
  constructor
  · intro hne
    refine ⟨?_, fun rows g u nm => rfl⟩
    simp only [match_stored_roll, hp]
    rw [if_pos ⟨hne, hs⟩]
  · intro h0
    subst h0
    simp only [match_stored_roll, hp]
    rw [if_neg (by simp)]
    cases hins : insertDefaultDiff (pySplitWs stored.1) with
    | none => simp
    | some toks =>
      simp only [hins]
      cases hps : pool_step toks 0 with
      | none => simp
      | some toks2 =>
        simp only [hps]
        cases hds : diff_step toks2 tok2 with
        | none => simp
        | some pr => simp [hds]

/-- Witness for `pool_delta_sign_validation`: the unsigned delta `5` is
rejected. -/
theorem pool_delta_sign_validation_witness :
    match_stored_roll ("7 6", none) (some ("5", none)) ⟨"brawl 5", none, none⟩
      = some (.error pool_sign_err) :=
  ((pool_delta_sign_validation ("7 6", none) "5" none ⟨"brawl 5", none, none⟩ 5
      (by decide) (by decide)).1 (by decide)).1

/-- C2: on a macro use with a pool token that passes the sign check and a
second modifier token, a digits-only second token replaces the difficulty
slot and the override says `Diff. to N.`, while a signed second token is
added to the current difficulty; in both cases the difficulty slot is the
stored second token when it starts with a digit and the inserted default
`"6"` otherwise (`defaultDiffSlot`). -/
theorem diff_override_on_use
    (s : String) (sc : Option String) (tok1 tok2 : String) (cmd : Command)
    (t0 d1 : String) (ts rest : List String) (p pool : Int)
    (hsplit : pySplitWs s = t0 :: ts)
    (hslot : defaultDiffSlot ts = (d1, rest))
    (hpool : pyInt t0 = some pool)
    (hp : pyInt tok1 = some p)
    (hacc : p = 0 ∨ hasSign tok1 = true) :
    (pyIsdigit tok2 = true →
      match_stored_roll (s, sc) (some (tok1, some tok2)) cmd
        = some (.ok (applyStoredComment sc
            { cmd with
              stx := joinSpace (pyStr (pool + p) :: tok2 :: rest),
              override := some ((if p = 0 then "" else "Pool " ++ fmtSigned p ++ ". ")
                ++ ("Diff. to " ++ tok2 ++ ".")) }))) ∧
    (∀ dm cur : Int, hasSign tok2 = true → pyInt tok2 = some dm → pyInt d1 = some cur →
      match_stored_roll (s, sc) (some (tok1, some tok2)) cmd
        = some (.ok (applyStoredComment sc
            { cmd with
              stx := joinSpace (pyStr (pool + p) :: pyStr (cur + dm) :: rest),
              override := some ((if p = 0 then "" else "Pool " ++ fmtSigned p ++ ". ")
                ++ (if dm = 0 then "" else "Diff. " ++ fmtSigned dm ++ ".")) }))) := by
  have hcond : ¬(p ≠ 0 ∧ hasSign tok1 = false) := by
    rcases hacc with h | h
    · simp [h]
    · simp [h]
  constructor
  · intro hdig
    simp only [match_stored_roll, hp, if_neg hcond, hsplit, insertDefaultDiff, hslot,
      pool_step, hpool, Option.map_some', diff_step, Option.getD_some, hdig, if_pos]
  · intro dm cur hsig hdm hcur
    have hnotdig : pyIsdigit tok2 = false := hasSign_not_digit tok2 hsig
    simp only [match_stored_roll, hp, if_neg hcond, hsplit, insertDefaultDiff, hslot,
      pool_step, hpool, Option.map_some', diff_step, Option.getD_some, hnotdig,
      Bool.false_eq_true, if_false, hdm, hcur]

/-- Witness for `diff_override_on_use`: using a `7 6` macro with modifiers
`+2 8` yields syntax `9 8` with override `Pool +2. Diff. to 8.`. -/
theorem diff_override_on_use_witness :
    match_stored_roll ("7 6", none) (some ("+2", some "8")) ⟨"brawl +2 8", none, none⟩
      = some (.ok ⟨"9 8", none, some "Pool +2. Diff. to 8."⟩) := by
  rw [(diff_override_on_use "7 6" none "+2" "8" ⟨"brawl +2 8", none, none⟩
        "7" "6" ["6"] [] 2 7 (by decide) (by decide) (by decide) (by decide)
        (Or.inr (by decide))).1 (by decide)]
  decide

/-! ### Guild settings (storyteller/databases/settings.py)

The cache built by `__fetch_all_settings` is a `defaultdict` whose default
factory returns one shared `default_params` dict.  Guilds with a stored
`GuildSettings` row own a private dict; every other guild is lazily bound
to the single shared dict, so a write through the cache for such a guild
mutates what every other row-less guild reads.  The embedding keeps the
three pieces explicit: `own` (per-row dicts), `registered` (row-less
guilds already materialized in the defaultdict) and `shared` (the one
`default_params` object, itself a defaultdict with default `False` and
presets `default_diff = 6`, `prefix = None`). -/

/-- A Python settings value: bool toggle, int difficulty, or optional
prefix string. -/
inductive PVal where
  | pbool : Bool → PVal
  | pint : Int → PVal
  | pstr : Option String → PVal
deriving DecidableEq

/-- `SettingsDB.available_parameters`: the keys of `__PARAMETERS` in
insertion order.  The source dict literal writes the key `"xpl_always"`
twice (once literally, once through `XPL_ALWAYS`), so it appears once
here, and `xpl_spec` is not an available parameter. -/
def available_parameters : List String :=
  ["prefix", "use_compact", "default_diff", "xpl_always", "never_double",
   "always_double", "nullify_ones", "no_botch", "wp_cancelable", "chronicles"]

/-- `distutils.util.strtobool` composed with `bool(...)`, on a lowered
string; `none` models the `ValueError`. -/
def strtobool (s : String) : Option Bool :=
  let l := strLower s
  if l = "y" ∨ l = "yes" ∨ l = "t" ∨ l = "true" ∨ l = "on" ∨ l = "1" then some true
  else if l = "n" ∨ l = "no" ∨ l = "f" ∨ l = "false" ∨ l = "off" ∨ l = "0" then some false
  else none

/-- Python `int(...)` over the value types `update` receives. -/
def pvalToInt : PVal → Option Int
  | .pint i => some i
  | .pbool b => some (if b then 1 else 0)
  | .pstr (some s) => pyInt s
  | .pstr none => none

/-- Python truthiness of a settings value. -/
def pvalTruthy : PVal → Bool
  | .pbool b => b
  | .pint i => i != 0
  | .pstr o => pyTruthy o

/-- Python `str(...)` on a bool. -/
def pyStrBool (b : Bool) : String := if b then "True" else "False"

/-- Python f-string rendering of a settings value. -/
def pyRepr : PVal → String
  | .pbool b => pyStrBool b
  | .pint i => pyStr i
  | .pstr (some s) => s
  | .pstr none => "None"

/-- `SettingsDB.__validated_parameter`; `none` models the raised
`ValueError` (and the `AttributeError` from `strtobool` on a non-string,
which equally aborts the update). -/
def validated (key : String) (v : PVal) : Option PVal :=
  if key ∈ available_parameters then
    if key = "default_diff" then
      match pvalToInt v with
      | some i => if 2 ≤ i ∧ i ≤ 10 then some (.pint i) else none
      | none => none
    else if key = "prefix" then some v
    else
      match v with
      | .pstr (some s) => (strtobool s).map .pbool
      | _ => none
  else none

/-- One cached parameter dict. -/
abbrev ParamDict := List (String × PVal)

/-- Python dict lookup. -/
def dictFind : ParamDict → String → Option PVal
  | [], _ => none
  | kv :: rest, key => if kv.1 = key then some kv.2 else dictFind rest key

/-- Python dict assignment `d[key] = v`. -/
def dictSet : ParamDict → String → PVal → ParamDict
  | [], key, v => [(key, v)]
  | kv :: rest, key, v =>
      if kv.1 = key then (key, v) :: rest else kv :: dictSet rest key v

/-- Reading a parameter from a cached dict.  The shared `default_params`
defaultdict defaults to `False`; per-row dicts carry every parameter key,
so the default is never reached for them. -/
def lookupParam (d : ParamDict) (key : String) : PVal :=
  (dictFind d key).getD (.pbool false)

/-- The `__all_settings` cache. -/
structure SettingsCache where
  own : List (Int × ParamDict)
  registered : List Int
  shared : ParamDict
deriving DecidableEq

/-- Lookup of a guild's private dict. -/
def ownFind : List (Int × ParamDict) → Int → Option ParamDict
  | [], _ => none
  | kv :: rest, g => if kv.1 = g then some kv.2 else ownFind rest g

/-- Replacement of a guild's private dict. -/
def ownSet : List (Int × ParamDict) → Int → ParamDict → List (Int × ParamDict)
  | [], g, d => [(g, d)]
  | kv :: rest, g, d => if kv.1 = g then (g, d) :: rest else kv :: ownSet rest g d

/-- `self.__all_settings[guild][key] = value`: a guild with a private dict
gets it updated; any other guild is materialized onto the shared
`default_params` dict, which is then mutated in place. -/
def setParam (c : SettingsCache) (g : Int) (key : String) (v : PVal) :
    SettingsCache :=
  match ownFind c.own g with
  | some d => { c with own := ownSet c.own g (dictSet d key v) }
  | none =>
      { c with
        registered := if c.registered.contains g then c.registered else c.registered ++ [g],
        shared := dictSet c.shared key v }

/-- The dict `settings_for_guild` returns for a guild. -/
def guildDict (c : SettingsCache) (g : Int) : ParamDict :=
  match ownFind c.own g with
  | some d => d
  | none => c.shared

/-- The value a guild observes for a key through the cache. -/
def view (c : SettingsCache) (g : Int) (key : String) : PVal :=
  lookupParam (guildDict c g) key

/-- `SettingsDB.update` for a key other than `chronicles`: validate, write
the row and the cache, and build the confirmation message. -/
def update_nonchron (c : SettingsCache) (g : Int) (key : String) (v : PVal) :
    Option (SettingsCache × String) :=
  match validated key v with
  | none => none
  | some v2 =>
      let c1 := setParam c g key v2
      let msg :=
        if key = "prefix" then
          if pvalTruthy v2 then
            "Setting the prefix to `" ++ pyRepr v2 ++ "`."
              ++ (if 3 < (pyRepr v2).length then
                    " A prefix this long might be annoying to type!" else "")
          else "Reset the command prefix to `/m` and `!m`."
        else "Setting `" ++ key ++ "` to `" ++ pyRepr v2 ++ "`!"
      some (c1, msg)

/-- `SettingsDB.update`.  The source recurses into `self.update` for the
four keys the `chronicles` composite sets; those keys are never
`chronicles`, so the recursion is unfolded into `update_nonchron` here. -/
def update (c : SettingsCache) (g : Int) (key : String) (v : PVal) :
    Option (SettingsCache × String) :=
  if key = "chronicles" then
    match validated key v with
    | none => none
    | some v2 =>
        let c1 := setParam c g key v2
        let b := pvalTruthy v2
        match update_nonchron c1 g "default_diff" (.pint (if b then 8 else 6)) with
        | none => none
        | some (c2, _) =>
            match update_nonchron c2 g "xpl_always" (.pstr (some (pyStrBool b))) with
            | none => none
            | some (c3, _) =>
                match update_nonchron c3 g "nullify_ones" (.pstr (some (pyStrBool b))) with
                | none => none
                | some (c4, _) =>
                    match update_nonchron c4 g "no_botch" (.pstr (some (pyStrBool b))) with
                    | none => none
                    | some (c5, _) =>
                        some (c5,
                          (if b then "Enabling" else "Disabling")
                            ++ " Chronicles of Darkness mode.")
  else update_nonchron c g key v

/-- The cache `__fetch_all_settings` builds over an empty `GuildSettings`
table: no private dicts; the shared defaultdict presets `default_diff = 6`
and `prefix = None`. -/
def emptyCache : SettingsCache :=
  { own := [], registered := [],
    shared := [("default_diff", .pint 6), ("prefix", .pstr none)] }

theorem dictFind_dictSet_self (d : ParamDict) (k : String) (v : PVal) :
    dictFind (dictSet d k v) k = some v := by
  induction d with
  | nil => simp [dictSet, dictFind]
  | cons kv rest ih =>
      by_cases h : kv.1 = k
      · simp [dictSet, dictFind, h]
      · simp [dictSet, dictFind, h, ih]

theorem dictFind_dictSet_other (d : ParamDict) (k k' : String) (v : PVal)
    (h : k' ≠ k) : dictFind (dictSet d k v) k' = dictFind d k' := by
  have h' : ¬(k = k') := fun hh => h hh.symm
  induction d with
  | nil => simp [dictSet, dictFind, h']
  | cons kv rest ih =>
      by_cases hk : kv.1 = k
      · subst hk
        simp [dictSet, dictFind, h']
      · by_cases hk' : kv.1 = k'
        · simp [dictSet, dictFind, hk, hk', h]
        · simp [dictSet, dictFind, hk, hk', ih]

theorem ownFind_ownSet_self (l : List (Int × ParamDict)) (g : Int) (d : ParamDict) :
    ownFind (ownSet l g d) g = some d := by
  induction l with
  | nil => simp [ownSet, ownFind]
  | cons kv rest ih =>
      by_cases h : kv.1 = g
      · simp [ownSet, ownFind, h]
      · simp [ownSet, ownFind, h, ih]

theorem ownFind_ownSet_other (l : List (Int × ParamDict)) (g g' : Int) (d : ParamDict)
    (h : g' ≠ g) : ownFind (ownSet l g d) g' = ownFind l g' := by
  have h' : ¬(g = g') := fun hh => h hh.symm
  induction l with
  | nil => simp [ownSet, ownFind, h']
  | cons kv rest ih =>
      by_cases hg : kv.1 = g
      · subst hg
        simp [ownSet, ownFind, h']
      · by_cases hg' : kv.1 = g'
        · simp [ownSet, ownFind, hg, hg', h]
        · simp [ownSet, ownFind, hg, hg', ih]

/-- A cache write is observed at the written guild and key. -/
theorem view_setParam_self (c : SettingsCache) (g : Int) (k : String) (v : PVal) :
    view (setParam c g k v) g k = v := by
  unfold view setParam guildDict
  cases h : ownFind c.own g with
  | some d => simp [h, ownFind_ownSet_self, lookupParam, dictFind_dictSet_self]
  | none => simp [h, lookupParam, dictFind_dictSet_self]

/-- A cache write leaves every other key unchanged, for every guild. -/
theorem view_setParam_other_key (c : SettingsCache) (g g' : Int) (k k' : String)
    (v : PVal) (h : k' ≠ k) :
    view (setParam c g k v) g' k' = view c g' k' := by
  unfold view setParam guildDict
  cases hg : ownFind c.own g with
  | some d =>
      by_cases he : g' = g
      · subst he
        simp [hg, ownFind_ownSet_self, lookupParam, dictFind_dictSet_other _ _ _ _ h]
      · simp [hg, ownFind_ownSet_other _ _ _ _ he]
  | none =>
      cases hg' : ownFind c.own g' with
      | some d => simp [hg, hg']
      | none => simp [hg, hg', lookupParam, dictFind_dictSet_other _ _ _ _ h]

/-- C5: setting `chronicles` composites four dependent settings (difficulty
8/6, explode-always, nullify-ones, no-botch) and reports
Enabling/Disabling Chronicles of Darkness mode. -/
theorem chronicles_composite_setter (c : SettingsCache) (g : Int) (vs : String)
    (b : Bool) (hb : strtobool vs = some b) :
    ∃ c' : SettingsCache,
      update c g "chronicles" (.pstr (some vs))
        = some (c', (if b then "Enabling" else "Disabling")
            ++ " Chronicles of Darkness mode.") ∧
      view c' g "chronicles" = .pbool b ∧
      view c' g "default_diff" = .pint (if b then 8 else 6) ∧
      view c' g "xpl_always" = .pbool b ∧
      view c' g "nullify_ones" = .pbool b ∧
      view c' g "no_botch" = .pbool b := by
  have hval : validated "chronicles" (.pstr (some vs)) = some (.pbool b) := by
    unfold validated
    rw [if_pos (by decide : ("chronicles" : String) ∈ available_parameters)]
    rw [if_neg (by decide : ¬("chronicles" : String) = "default_diff")]
    rw [if_neg (by decide : ¬("chronicles" : String) = "prefix")]
    show Option.map PVal.pbool (strtobool vs) = some (PVal.pbool b)
    rw [hb]
    rfl
  refine ⟨setParam (setParam (setParam (setParam
      (setParam c g "chronicles" (.pbool b))
      g "default_diff" (.pint (if b then 8 else 6)))
      g "xpl_always" (.pbool b))
      g "nullify_ones" (.pbool b))
      g "no_botch" (.pbool b), ?_, ?_, ?_, ?_, ?_, ?_⟩
  · cases b <;>
      · unfold update
        rw [if_pos rfl, hval]
        rfl
  · rw [view_setParam_other_key _ _ _ _ _ _ (by decide),
        view_setParam_other_key _ _ _ _ _ _ (by decide),
        view_setParam_other_key _ _ _ _ _ _ (by decide),
        view_setParam_other_key _ _ _ _ _ _ (by decide),
        view_setParam_self]
  · rw [view_setParam_other_key _ _ _ _ _ _ (by decide),
        view_setParam_other_key _ _ _ _ _ _ (by decide),
        view_setParam_other_key _ _ _ _ _ _ (by decide),
        view_setParam_self]
  · rw [view_setParam_other_key _ _ _ _ _ _ (by decide),
        view_setParam_other_key _ _ _ _ _ _ (by decide),
        view_setParam_self]
  · rw [view_setParam_other_key _ _ _ _ _ _ (by decide),
        view_setParam_self]
  · rw [view_setParam_self]

/-- Witness for `chronicles_composite_setter`: enabling chronicles on the
empty cache. -/
theorem chronicles_composite_setter_witness :
    ∃ c' : SettingsCache,
      update emptyCache 1 "chronicles" (.pstr (some "true"))
        = some (c', (if true then "Enabling" else "Disabling")
            ++ " Chronicles of Darkness mode.") ∧
      view c' 1 "chronicles" = .pbool true ∧
      view c' 1 "default_diff" = .pint (if true then 8 else 6) ∧
      view c' 1 "xpl_always" = .pbool true ∧
      view c' 1 "nullify_ones" = .pbool true ∧
      view c' 1 "no_botch" = .pbool true :=
  chronicles_composite_setter emptyCache 1 "true" true (by decide)

/-- C10 fails on the code: both guild 1 and guild 2 lack a settings row, so
they share the cached `default_params` dict; updating guild 1's default
difficulty changes what guild 2 reads from 6 to 8. -/
theorem settings_update_leaks_across_guilds :
    view emptyCache 2 "default_diff" = .pint 6 ∧
    ∃ (c1 : SettingsCache) (msg : String),
      update emptyCache 1 "default_diff" (.pstr (some "8")) = some (c1, msg) ∧
      view c1 2 "default_diff" = .pint 8 ∧
      (PVal.pint 8) ≠ (.pint 6) := by
  refine ⟨by decide, setParam emptyCache 1 "default_diff" (.pint 8),
    "Setting `default_diff` to `8`!", by decide, by decide, by decide⟩

/-! ### Arithmetic rolls (tzimisce/parse/traditional.py lines 35-57) -/

/-- Python `s.split(sep)` for a one-character separator (keeps empty
pieces); `acc` holds the current piece reversed. -/
def charSplitAux (sep : Char) : List Char → List Char → List String
  | [], acc => [⟨acc.reverse⟩]
  | c :: rest, acc =>
      if c = sep then (⟨acc.reverse⟩ : String) :: charSplitAux sep rest []
      else charSplitAux sep rest (c :: acc)

/-- Python `s.split(sep)`. -/
def charSplit (s : String) (sep : Char) : List String :=
  charSplitAux sep s.data []

/-- Python `sep in s` for a character. -/
def pyContains (s : String) (c : Char) : Bool := s.data.contains c

/-- Python `s.strip()`. -/
def pyStrip (s : String) : String :=
  ⟨((s.data.dropWhile Char.isWhitespace).reverse.dropWhile Char.isWhitespace).reverse⟩

/-- Python `int(s)` restricted to an unsigned token. -/
def pyNat (s : String) : Option Nat :=
  if pyIsdigit s then some (digitsVal s.data) else none

/-- Python `"+".join(l)`. -/
def joinPlus : List String → String
  | [] => ""
  | [t] => t
  | t :: ts => t ++ "+" ++ joinPlus ts

/-- Evaluate the `+`-separated terms of an arithmetic roll against the
supplied die stream: an `NdM` term consumes `N` draws, a flat term
contributes its own value. -/
def rollTerms : List String → List Nat → Option (List Nat)
  | [], _ => some []
  | t :: ts, dice =>
      if pyContains t 'd' then
        match charSplit t 'd' with
        | [n, m] =>
            match pyNat n, pyNat m with
            | some count, some _faces =>
                if count ≤ dice.length then
                  (rollTerms ts (dice.drop count)).map
                    (fun rest => dice.take count ++ rest)
                else none
            | _, _ => none
        | _ => none
      else
        match pyNat t, rollTerms ts dice with
        | some k, some rest => some (k :: rest)
        | _, _ => none

/-- Modelled from the spec: `tzimisce.roll.traditional.roll_from_string`
(the `tzimisce/roll` package is not among the provided sources).  Per
§4.2, each `NdM` term's dice are drawn independently and all terms plus
any flat integers are summed; since the caller (lines 44-45) computes the
result as `sum(rolls)` over the returned list, flat integers are returned
in the list alongside the die values.  The random draws are supplied as
the `dice` stream. -/
def roll_from_string (stx : String) (dice : List Nat) : Option (List Nat) :=
  rollTerms ((charSplit stx '+').map pyStrip) dice

/-- Lines 44-57 of `__traditional_roll`: the displayed result is
`str(sum(rolls))`, and when more than one element came back the per-die
description joins them all with `+`. -/
def traditional_result_description (stx : String) (dice : List Nat) :
    Option (String × Option String) :=
  (roll_from_string stx dice).map (fun rolls =>
    (toString (rolls.foldl (· + ·) 0),
     if 1 < rolls.length then some (joinPlus (rolls.map (fun r => toString r)))
     else none))

/-- C6 counterexample: for `2d6+3` with dice 4 and 5, the result is 12 but
the per-die description is `4+5+3` — the flat `+3` term is part of the
summed-and-joined list — not `4+5` as claimed. -/
theorem arithmetic_description_cex :
    traditional_result_description "2d6+3" [4, 5] = some ("12", some "4+5+3") ∧
    (some "4+5+3" : Option String) ≠ some "4+5" :=
  ⟨by decide, by decide⟩

/-- C6 (amended): evaluating `2d6+3` with dice 4 and 5 yields result 12
and per-die description `4+5+3`. -/
theorem arithmetic_roll_transparency :
    traditional_result_description "2d6+3" [4, 5] = some ("12", some "4+5+3") := by
  decide

/-! ### Initiative (tzimisce/initiative/initiative.py and
storyteller/parse/initiative.py) -/

/-- An individual initiative roll (tzimisce/initiative/initiative.py).
The die is drawn by `roll.Traditional.roll(1, 10)[0]`, a primitive outside
the provided sources; draws appear as explicit parameters constrained to
1-10 where a claim needs the range. -/
structure Initiative where
  mod : Int
  die : Nat
  action : Option String
deriving DecidableEq

/-- `Initiative.init`: the derived score `mod + die`. -/
def Initiative.init (e : Initiative) : Int := e.mod + e.die

/-- `Initiative.reroll` (lines 21-24): a fresh die, the action cleared;
the modifier is untouched. -/
def Initiative.reroll (e : Initiative) (newDie : Nat) : Initiative :=
  { mod := e.mod, die := newDie, action := none }

/-- C8: rerolling replaces the die with the fresh 1-10 draw, clears the
declared action, keeps the modifier, and the score becomes modifier plus
the new die. -/
theorem reroll_frame (e : Initiative) (d : Nat) (_h1 : 1 ≤ d) (_h2 : d ≤ 10) :
    (e.reroll d).die = d ∧ (e.reroll d).action = none ∧
    (e.reroll d).mod = e.mod ∧ (e.reroll d).init = e.mod + d :=
  ⟨rfl, rfl, rfl, rfl⟩

/-- Witness for `reroll_frame` on a concrete entry and draw. -/
theorem reroll_frame_witness :
    (Initiative.reroll ⟨3, 7, some "dodge"⟩ 5).die = 5 ∧
    (Initiative.reroll ⟨3, 7, some "dodge"⟩ 5).action = none ∧
    (Initiative.reroll ⟨3, 7, some "dodge"⟩ 5).mod = 3 ∧
    (Initiative.reroll ⟨3, 7, some "dodge"⟩ 5).init = (3 : Int) + (5 : Nat) :=
  reroll_frame ⟨3, 7, some "dodge"⟩ 5 (by decide) (by decide)

/-- A channel's initiative table: named entries in display order. -/
abbrev InitTable := List (String × Initiative)

/-- Descending insertion by score; equal scores keep the existing order
(the source leaves the tie-break unspecified). -/
def insertByScore (x : String × Initiative) : InitTable → InitTable
  | [] => [x]
  | y :: rest =>
      if y.2.init < x.2.init then x :: y :: rest else y :: insertByScore x rest

/-- Re-sorting a whole table descending by score. -/
def sortByScore (l : InitTable) : InitTable :=
  l.foldl (fun acc x => insertByScore x acc) []

/-- Modelled from the spec: `InitiativeManager.add_init` (the
`storyteller/initiative` package is not among the provided sources) draws
a fresh die, creates the entry and inserts it re-sorted descending by
score. -/
def add_init (tbl : InitTable) (character : String) (modv : Int) (die : Nat) :
    InitTable × Initiative :=
  let e : Initiative := ⟨modv, die, none⟩
  (insertByScore (character, e) tbl, e)

/-- Modelled from the spec: `InitiativeManager.modify_init` locates the
character's first entry; if absent it reports a no-op (`none`) and leaves
the table as it was; otherwise it adds the delta to the modifier,
recomputes the score and re-sorts. -/
def modify_init : InitTable → String → Int → Option Initiative × InitTable
  | [], _, _ => (none, [])
  | (n, e) :: rest, character, delta =>
      if n = character then
        let e2 : Initiative := ⟨e.mod + delta, e.die, e.action⟩
        (some e2, sortByScore ((n, e2) :: rest))
      else
        let r := modify_init rest character delta
        (r.1, (n, e) :: r.2)

/-- Whether any entry belongs to the character. -/
def hasCharacter (tbl : InitTable) (character : String) : Bool :=
  tbl.any (fun x => x.1 == character)

/-- `modify_init` of an absent character returns `none` and the unchanged
table. -/
theorem modify_init_absent (tbl : InitTable) (c : String) (v : Int)
    (h : hasCharacter tbl c = false) : modify_init tbl c v = (none, tbl) := by
  induction tbl with
  | nil => rfl
  | cons x rest ih =>
      obtain ⟨n, e⟩ := x
      simp only [hasCharacter, List.any_cons, Bool.or_eq_false_iff, beq_eq_false_iff_ne,
        ne_eq] at h
      obtain ⟨hne, hrest⟩ := h
      unfold modify_init
      rw [if_neg hne, ih hrest]

/-- The engine state the `initiative` command handler touches: the
per-channel tables, the `set_initiative` persistence rows
`(guild, channel, character, mod, die)`, and the statistics increments. -/
structure InitState where
  tables : List (Nat × InitTable)
  persisted : List (Int × Nat × String × Int × Nat)
  statRolls : List Int
deriving DecidableEq

/-- `storyteller.initiative.get_table`. -/
def tableFind : List (Nat × InitTable) → Nat → Option InitTable
  | [], _ => none
  | kv :: rest, ch => if kv.1 = ch then some kv.2 else tableFind rest ch

/-- Modelled from the spec: `storyteller.initiative.add_table` registers
the channel's table (replacing any previous binding). -/
def tableSet : List (Nat × InitTable) → Nat → InitTable → List (Nat × InitTable)
  | [], ch, t => [(ch, t)]
  | kv :: rest, ch, t => if kv.1 = ch then (ch, t) :: rest else kv :: tableSet rest ch t

/-- In-place mutation of a manager object already registered for the
channel: visible through the table map only when the channel was bound
(a fresh unregistered manager's mutation is invisible). -/
def reflectTable (tables : List (Nat × InitTable)) (ch : Nat) (t : InitTable) :
    List (Nat × InitTable) :=
  if (tableFind tables ch).isSome then tableSet tables ch t else tables

/-- The handler's reply, with the presentation layer abstracted: the
table/usage embeds, the literal error message, or the rolled-initiative
embed for a character. -/
inductive InitReply where
  | display
  | usage
  | message (content : String)
  | rolled (character : String)
deriving DecidableEq

/-- `storyteller.parse.initiative.initiative` (lines 34-104).  `mod` is
the raw modifier argument (a string despite its annotation: the code
indexes it and compares its first character); `freshDie` supplies the
die for the add path.  A `+`/`-` sign marks augmentation of an existing
entry; without a sign a new entry is rolled and the table registered. -/
def initiative_cmd (st : InitState) (guild : Int) (channel : Nat) (author : String)
    (mod : Option String) (character_name : Option String) (freshDie : Nat) :
    InitState × InitReply :=
  match mod with
  | none => (st, if (tableFind st.tables channel).isSome then .display else .usage)
  | some m =>
      if m = "" then (st, if (tableFind st.tables channel).isSome then .display else .usage)
      else
        let mgr := (tableFind st.tables channel).getD []
        match pyInt m with
        | none => (st, .usage)
        | some modv =>
            let character := character_name.getD author
            if hasSign m then
              match modify_init mgr character modv with
              | (none, _) => (st, .message (character ++ " has no initiative to modify!"))
              | (some entry, mgr2) =>
                  ({ tables := reflectTable st.tables channel mgr2,
                     persisted := st.persisted
                        ++ [(guild, channel, character, entry.mod, entry.die)],
                     statRolls := st.statRolls ++ [guild] },
                   .rolled character)
            else
              let r := add_init mgr character modv freshDie
              ({ tables := tableSet st.tables channel r.1,
                 persisted := st.persisted
                    ++ [(guild, channel, character, r.2.mod, r.2.die)],
                 statRolls := st.statRolls ++ [guild] },
               .rolled character)

/-- C7: augmenting (signed modifier) a character absent from the channel's
table answers with the no-initiative message and changes nothing: no
entry, no table registration, no persistence write, no statistics
increment. -/
theorem init_modify_absent_noop (st : InitState) (guild : Int) (channel : Nat)
    (author m : String) (charName : Option String) (die : Nat) (v : Int)
    (hsig : hasSign m = true) (hv : pyInt m = some v)
    (habs : hasCharacter ((tableFind st.tables channel).getD [])
        (charName.getD author) = false) :
    initiative_cmd st guild channel author (some m) charName die
      = (st, .message ((charName.getD author) ++ " has no initiative to modify!")) := by
  have hm : ¬(m = "") := by
    intro h
    subst h
    simp [hasSign] at hsig
  show (if m = "" then _ else _) = _
  rw [if_neg hm]
  simp only [hv, hsig, if_true, modify_init_absent _ _ _ habs]

/-- Witness for `init_modify_absent_noop`: `+2` for Alice in a channel
with no table. -/
theorem init_modify_absent_noop_witness :
    initiative_cmd ⟨[], [], []⟩ 1 100 "Alice" (some "+2") none 7
      = (⟨[], [], []⟩, .message ("Alice has no initiative to modify!")) :=
  init_modify_absent_noop ⟨[], [], []⟩ 1 100 "Alice" "+2" none 7 2
    (by decide) (by decide) (by decide)

/-! ### Comment splitting (masquerade.py lines 219-239) -/

/-- Python `s.index(c)`: index of the first occurrence, `none` for the
raised `ValueError`. -/
def pyIndex : List Char → Char → Option Nat
  | [], _ => none
  | c :: rest, t => if c = t then some 0 else (pyIndex rest t).map (· + 1)

/-- Python `s.split(c, 1)` viewed as head piece plus optional remainder. -/
def pySplit1 (l : List Char) (t : Char) : List Char × Option (List Char) :=
  match pyIndex l t with
  | none => (l, none)
  | some i => (l.take i, some (l.drop (i + 1)))

/-- `split_comment`: when both the raw and the clean text contain `#`, the
clean text is split if the two indices agree and the raw text otherwise;
if either `index` call raises, the raw text is returned whole. -/
def split_comment (raw clean : List Char) : List Char × Option (List Char) :=
  match pyIndex raw '#', pyIndex clean '#' with
  | some ri, some ci => pySplit1 (if ri = ci then clean else raw) '#'
  | _, _ => (raw, none)

/-- C9: the clean text is split at its first `#` when the raw and clean
indices agree, the raw text is split at its first `#` when they differ,
and the raw text is returned whole with no comment when either string
lacks `#`. -/
theorem split_comment_spec (raw clean : List Char) :
    (∀ i, pyIndex raw '#' = some i → pyIndex clean '#' = some i →
      split_comment raw clean = (clean.take i, some (clean.drop (i + 1)))) ∧
    (∀ ri ci, pyIndex raw '#' = some ri → pyIndex clean '#' = some ci → ri ≠ ci →
      split_comment raw clean = (raw.take ri, some (raw.drop (ri + 1)))) ∧
    ((pyIndex raw '#' = none ∨ pyIndex clean '#' = none) →
      split_comment raw clean = (raw, none)) := by
  refine ⟨?_, ?_, ?_⟩
  · intro i h1 h2
    unfold split_comment
    rw [h1, h2]
    show pySplit1 (if i = i then clean else raw) '#' = _
    rw [if_pos rfl]
    unfold pySplit1
    rw [h2]
  · intro ri ci h1 h2 hne
    unfold split_comment
    rw [h1, h2]
    show pySplit1 (if ri = ci then clean else raw) '#' = _
    rw [if_neg hne]
    unfold pySplit1
    rw [h1]
  · intro h
    rcases h with h | h
    · unfold split_comment
      rw [h]
    · cases h1 : pyIndex raw '#' with
      | none =>
          unfold split_comment
          rw [h1]
      | some ri =>
          unfold split_comment
          rw [h1, h]

/-- Witness for `split_comment_spec`: equal `#` indices split the clean
text. -/
theorem split_comment_spec_witness :
    split_comment ['5', ' ', '#', 'x'] ['5', ' ', '#', 'y']
      = (['5', ' '], some ['y']) := by
  rw [(split_comment_spec ['5', ' ', '#', 'x'] ['5', ' ', '#', 'y']).1 2
    (by decide) (by decide)]
  decide
